import Mathlib

/-!
Verification of the SPC computation pipeline of this repository.

The numeric core lives in `src/app/(tabs)/index.tsx`: `calculateSubgroups`
(lines 138-150), `calculateDistributionData` (lines 152-175) and the body of
`handleAnalyze` (lines 196-252), plus the control-chart constants table with
its size fallback in the `ControlCharts` component (`src/unnamed/part_000`,
lines 20-33).

Modelling conventions:
* JavaScript numbers are modelled by exact rationals.  Where the source can
  produce the IEEE special values (division by zero, `Math.min`/`Math.max`
  over them, `NaN` array indices), values are wrapped in the `JsNum` type
  which carries `NaN` and the two infinities explicitly, and the arithmetic
  on `JsNum` follows the JavaScript evaluation rules for those operands.
  The sign of zero is not modelled (the source never branches on it).
* The capability formulas (`handleAnalyze` lines 228-232 and the metrics
  record of lines 236-251) involve `Math.sqrt`, so they are additionally
  modelled over the real numbers (`stdDevR`, `cpR`, ..., `metricsR`).
* `parseFloat` happens upstream of the modelled core; inputs are taken as
  already-parsed rationals.
-/

namespace SPC

/-- JavaScript double values as used by the pipeline: a finite value (an exact
rational), the two infinities, or `NaN`. -/
inductive JsNum where
  | num (q : ℚ)
  | posInf
  | negInf
  | nan
deriving DecidableEq

/-- JavaScript addition on `JsNum` operands. -/
def jsAdd : JsNum → JsNum → JsNum
  | JsNum.nan, _ => JsNum.nan
  | _, JsNum.nan => JsNum.nan
  | JsNum.posInf, JsNum.negInf => JsNum.nan
  | JsNum.negInf, JsNum.posInf => JsNum.nan
  | JsNum.posInf, _ => JsNum.posInf
  | _, JsNum.posInf => JsNum.posInf
  | JsNum.negInf, _ => JsNum.negInf
  | _, JsNum.negInf => JsNum.negInf
  | JsNum.num a, JsNum.num b => JsNum.num (a + b)

/-- JavaScript subtraction on `JsNum` operands. -/
def jsSub : JsNum → JsNum → JsNum
  | JsNum.nan, _ => JsNum.nan
  | _, JsNum.nan => JsNum.nan
  | JsNum.posInf, JsNum.posInf => JsNum.nan
  | JsNum.negInf, JsNum.negInf => JsNum.nan
  | JsNum.posInf, _ => JsNum.posInf
  | JsNum.negInf, _ => JsNum.negInf
  | JsNum.num _, JsNum.posInf => JsNum.negInf
  | JsNum.num _, JsNum.negInf => JsNum.posInf
  | JsNum.num a, JsNum.num b => JsNum.num (a - b)

/-- JavaScript multiplication on `JsNum` operands (`0 * Infinity = NaN`). -/
def jsMul : JsNum → JsNum → JsNum
  | JsNum.nan, _ => JsNum.nan
  | _, JsNum.nan => JsNum.nan
  | JsNum.posInf, JsNum.posInf => JsNum.posInf
  | JsNum.posInf, JsNum.negInf => JsNum.negInf
  | JsNum.negInf, JsNum.posInf => JsNum.negInf
  | JsNum.negInf, JsNum.negInf => JsNum.posInf
  | JsNum.posInf, JsNum.num b =>
      if 0 < b then JsNum.posInf else if b < 0 then JsNum.negInf else JsNum.nan
  | JsNum.num a, JsNum.posInf =>
      if 0 < a then JsNum.posInf else if a < 0 then JsNum.negInf else JsNum.nan
  | JsNum.negInf, JsNum.num b =>
      if 0 < b then JsNum.negInf else if b < 0 then JsNum.posInf else JsNum.nan
  | JsNum.num a, JsNum.negInf =>
      if 0 < a then JsNum.negInf else if a < 0 then JsNum.posInf else JsNum.nan
  | JsNum.num a, JsNum.num b => JsNum.num (a * b)

/-- JavaScript division on `JsNum` operands: `0/0 = NaN`, `x/0 = ±Infinity`
for `x ≠ 0`, `±Infinity/±Infinity = NaN`, finite divided by infinite is zero
(the sign of zero is not modelled). -/
def jsDiv : JsNum → JsNum → JsNum
  | JsNum.nan, _ => JsNum.nan
  | _, JsNum.nan => JsNum.nan
  | JsNum.posInf, JsNum.posInf => JsNum.nan
  | JsNum.posInf, JsNum.negInf => JsNum.nan
  | JsNum.negInf, JsNum.posInf => JsNum.nan
  | JsNum.negInf, JsNum.negInf => JsNum.nan
  | JsNum.posInf, JsNum.num b => if 0 ≤ b then JsNum.posInf else JsNum.negInf
  | JsNum.negInf, JsNum.num b => if 0 ≤ b then JsNum.negInf else JsNum.posInf
  | JsNum.num _, JsNum.posInf => JsNum.num 0
  | JsNum.num _, JsNum.negInf => JsNum.num 0
  | JsNum.num a, JsNum.num b =>
      if b = 0 then
        (if 0 < a then JsNum.posInf else if a < 0 then JsNum.negInf else JsNum.nan)
      else JsNum.num (a / b)

/-- Models `Math.min` on two `JsNum` operands: `NaN` wins, then `-Infinity`. -/
def jsMin : JsNum → JsNum → JsNum
  | JsNum.nan, _ => JsNum.nan
  | _, JsNum.nan => JsNum.nan
  | JsNum.negInf, _ => JsNum.negInf
  | _, JsNum.negInf => JsNum.negInf
  | JsNum.posInf, y => y
  | x, JsNum.posInf => x
  | JsNum.num a, JsNum.num b => JsNum.num (min a b)

/-- Models `Math.floor` on a `JsNum` (the identity on infinities and `NaN`). -/
def jsFloor : JsNum → JsNum
  | JsNum.num a => JsNum.num (⌊a⌋ : ℤ)
  | x => x

/-- Whether a `JsNum` is an ordinary finite number. -/
def JsNum.isFinite : JsNum → Bool
  | JsNum.num _ => true
  | _ => false

/-- Models `Math.max(...window)` for the spread over a list; the source only spreads
nonempty windows (a window has `size ≥ 1` elements), so the empty case
(JavaScript `-Infinity`) is mapped to `0` and never reached. -/
def listMax : List ℚ → ℚ
  | [] => 0
  | x :: xs => xs.foldl max x

/-- Models `Math.min(...window)` for the spread over a list; see `listMax` for the
unreached empty case. -/
def listMin : List ℚ → ℚ
  | [] => 0
  | x :: xs => xs.foldl min x

/-- A subgroup statistic as pushed by `calculateSubgroups`
(`index.tsx` lines 142-145): the window mean and the window range. -/
structure Subgroup where
  mean : ℚ
  range : ℚ
deriving DecidableEq

/-- Fuel-indexed body of the `for (let i = 0; i < data.length; i += size)`
loop of `calculateSubgroups` (`index.tsx` lines 138-150): slice the next
`size` elements, push its mean and range when the slice is full, and advance
by `size`.  The fuel only forces termination in Lean; `data.length` steps
always suffice when `size ≥ 1`. -/
def calculateSubgroupsAux : ℕ → List ℚ → ℕ → List Subgroup
  | 0, _, _ => []
  | _, [], _ => []
  | fuel + 1, data@(_ :: _), size =>
      let sub := data.take size
      if sub.length = size then
        { mean := sub.sum / (size : ℚ), range := listMax sub - listMin sub } ::
          calculateSubgroupsAux fuel (data.drop size) size
      else
        calculateSubgroupsAux fuel (data.drop size) size

/-- Models `calculateSubgroups` of `index.tsx` lines 138-150.  For `size = 0` the
JavaScript loop would never terminate (`i += 0`); the model returns `[]`
there for totality, and every claim about this function assumes `size ≥ 1`. -/
def calculateSubgroups (data : List ℚ) (size : ℕ) : List Subgroup :=
  if size = 0 then [] else calculateSubgroupsAux data.length data size

/-- The window of `size` consecutive measurements starting at index
`k * size`, i.e. `data.slice(k*size, k*size + size)`. -/
def window (data : List ℚ) (size k : ℕ) : List ℚ :=
  (data.drop (k * size)).take size

/-- The control constants record destructured in `handleAnalyze`
(`index.tsx` lines 205-215). -/
structure ConstantsRec where
  A2 : ℚ
  D3 : ℚ
  D4 : ℚ
deriving DecidableEq

/-- The `constants` table of `handleAnalyze` (`index.tsx` lines 205-213);
indexing outside 1..5 yields `undefined`, modelled by `none` (destructuring
`undefined` then throws, see `handleAnalyzeCore`). -/
def constantsIndex : ℕ → Option ConstantsRec
  | 1 => some { A2 := 1.880, D3 := 0, D4 := 3.267 }
  | 2 => some { A2 := 1.023, D3 := 0, D4 := 3.267 }
  | 3 => some { A2 := 0.729, D3 := 0, D4 := 2.575 }
  | 4 => some { A2 := 0.577, D3 := 0, D4 := 2.282 }
  | 5 => some { A2 := 0.483, D3 := 0, D4 := 2.115 }
  | _ => none

/-- The control-chart constants record of the `ControlCharts` component
(`src/unnamed/part_000` lines 20-26), which also carries `d2`. -/
structure CCConstantsRec where
  A2 : ℚ
  D3 : ℚ
  D4 : ℚ
  d2 : ℚ
deriving DecidableEq

/-- The `constants` table of the `ControlCharts` component
(`src/unnamed/part_000` lines 20-26). -/
def ccConstantsIndex : ℕ → Option CCConstantsRec
  | 1 => some { A2 := 1.880, D3 := 0, D4 := 3.267, d2 := 1.128 }
  | 2 => some { A2 := 1.023, D3 := 0, D4 := 3.267, d2 := 1.128 }
  | 3 => some { A2 := 0.729, D3 := 0, D4 := 2.575, d2 := 1.693 }
  | 4 => some { A2 := 0.577, D3 := 0, D4 := 2.282, d2 := 2.059 }
  | 5 => some { A2 := 0.483, D3 := 0, D4 := 2.115, d2 := 2.326 }
  | _ => none

/-- Models `constants[sampleSize as keyof typeof constants] || constants[1]` of the
`ControlCharts` component (`src/unnamed/part_000` line 33): an out-of-table
sample size silently falls back to the size-1 record. -/
def controlChartsConstants (size : ℕ) : CCConstantsRec :=
  (ccConstantsIndex size).getD { A2 := 1.880, D3 := 0, D4 := 3.267, d2 := 1.128 }

/-- Models `subgroups.reduce((a, b) => a + b.mean, 0) / subgroups.length`
(`index.tsx` line 217); for zero subgroups JavaScript computes `0/0 = NaN`. -/
def xBarMeanJs (sgs : List Subgroup) : JsNum :=
  jsDiv (JsNum.num (sgs.map Subgroup.mean).sum) (JsNum.num sgs.length)

/-- Models `subgroups.reduce((a, b) => a + b.range, 0) / subgroups.length`
(`index.tsx` line 218); for zero subgroups JavaScript computes `0/0 = NaN`. -/
def rangeMeanJs (sgs : List Subgroup) : JsNum :=
  jsDiv (JsNum.num (sgs.map Subgroup.range).sum) (JsNum.num sgs.length)

/-- Models `xBarUcl = mean + (A2 * rangeMean)` (`index.tsx` line 220). -/
def xBarUclJs (c : ConstantsRec) (sgs : List Subgroup) : JsNum :=
  jsAdd (xBarMeanJs sgs) (jsMul (JsNum.num c.A2) (rangeMeanJs sgs))

/-- Models `xBarLcl = mean - (A2 * rangeMean)` (`index.tsx` line 221). -/
def xBarLclJs (c : ConstantsRec) (sgs : List Subgroup) : JsNum :=
  jsSub (xBarMeanJs sgs) (jsMul (JsNum.num c.A2) (rangeMeanJs sgs))

/-- Models `rangeUcl = D4 * rangeMean` (`index.tsx` line 222). -/
def rangeUclJs (c : ConstantsRec) (sgs : List Subgroup) : JsNum :=
  jsMul (JsNum.num c.D4) (rangeMeanJs sgs)

/-- Models `rangeLcl = D3 * rangeMean` (`index.tsx` line 223). -/
def rangeLclJs (c : ConstantsRec) (sgs : List Subgroup) : JsNum :=
  jsMul (JsNum.num c.D3) (rangeMeanJs sgs)

/-- Models `numberOfBins = Math.ceil(Math.sqrt(specifications.length))`
(`index.tsx` line 153), computed on naturals: the ceiling of the square root
of `n`. -/
def numberOfBins (n : ℕ) : ℕ :=
  if Nat.sqrt n * Nat.sqrt n = n then Nat.sqrt n else Nat.sqrt n + 1

/-- The bin index `Math.min(Math.floor((spec - min) / binWidth),
numberOfBins - 1)` of `calculateDistributionData` (`index.tsx` lines
160-164), with the JavaScript special values: a zero `binWidth` makes the
division produce `NaN` (for `spec = min`) or `+Infinity` (for `spec > min`). -/
def binIndexJs (spec mn bw : ℚ) (nBins : ℕ) : JsNum :=
  jsMin (jsFloor (jsDiv (JsNum.num (spec - mn)) (JsNum.num bw)))
    (JsNum.num ((nBins : ℚ) - 1))

/-- The array slot actually incremented by `binCounts[binIndex]++`: a
JavaScript array write at a `NaN`, infinite, negative or fractional index
creates an object property instead of touching an array element, so only a
nonnegative integer `JsNum` denotes a bin. -/
def jsArrayIndex : JsNum → Option ℕ
  | JsNum.num q => if 0 ≤ q ∧ q.den = 1 then some q.num.toNat else none
  | _ => none

/-- Models `calculateDistributionData` of `index.tsx` lines 152-175: square-root
binning of the raw measurements, each bin reported with its midpoint `x` and
its count `y`.  For the empty list JavaScript computes `numberOfBins =
ceil(sqrt(0)) = 0` and builds a zero-length count array, so the result is
`([], 0)`; the bin count of slot `i` is the number of measurements whose
`binIndexJs` writes array slot `i`. -/
def calculateDistributionData (specs : List ℚ) : List (ℚ × ℕ) × ℕ :=
  match specs with
  | [] => ([], 0)
  | _ =>
      let n := numberOfBins specs.length
      let mn := listMin specs
      let mx := listMax specs
      let bw := (mx - mn) / (n : ℚ)
      ((List.range n).map fun (i : ℕ) =>
        (mn + (i : ℚ) * bw + bw / 2,
         (specs.filter (fun s => jsArrayIndex (binIndexJs s mn bw n) = some i)).length),
       n)

/-- One row of the filtered inspection data as consumed by `handleAnalyze`:
the parsed `ActualSpecification`, `FromSpecification` and `ToSpecification`
fields. -/
structure InspectionRow where
  actual : ℚ
  fromSpec : ℚ
  toSpec : ℚ
deriving DecidableEq

/-- The six-field `limits` record of the analysis bundle
(`index.tsx` lines 256-263). -/
structure LimitsQ where
  xBarUcl : JsNum
  xBarLcl : JsNum
  xBarMean : JsNum
  rangeUcl : JsNum
  rangeLcl : JsNum
  rangeMean : JsNum
deriving DecidableEq

/-- The part of the analysis bundle built by `handleAnalyze` that is modelled
over the rationals: chart series, control limits, the spec limits and the
histogram. -/
structure AnalysisQ where
  xBarData : List (ℕ × ℚ)
  rangeData : List (ℕ × ℚ)
  limits : LimitsQ
  usl : ℚ
  lsl : ℚ
  distData : List (ℚ × ℕ)
  bins : ℕ
deriving DecidableEq

/-- The numeric core of `handleAnalyze` (`index.tsx` lines 196-270) on
already-fetched, already-parsed rows.  `none` models the two statements that
can throw: destructuring `constants[sampleSize]` when the lookup is
`undefined` (size outside 1..5, line 215), and reading
`filteredData[0].ToSpecification` when the row list is empty (line 225); the
generic `catch` then reports an error and `setAnalysisData` is never called.
The capability metrics of lines 228-251 are pure arithmetic in
`(rangeMean, mean, usl, lsl, sampleSize)` with no further throw site; they
are modelled separately by `stdDevR`/`cpR`/`cpuR`/`cplR`/`metricsR` (over the
reals, for the `Math.sqrt` branch) and by `stdDevJsSize1`/`cpJs`/`cpuJs`/
`cplJs`/`cpkJs` (the JavaScript special-value behaviour). -/
def handleAnalyzeCore (rows : List InspectionRow) (size : ℕ) : Option AnalysisQ :=
  let specs := rows.map InspectionRow.actual
  let sgs := calculateSubgroups specs size
  let xBarData := sgs.enum.map fun p => (p.1 + 1, p.2.mean)
  let rangeData := sgs.enum.map fun p => (p.1 + 1, p.2.range)
  match constantsIndex size with
  | none => none
  | some c =>
      let limits : LimitsQ :=
        { xBarUcl := xBarUclJs c sgs
          xBarLcl := xBarLclJs c sgs
          xBarMean := xBarMeanJs sgs
          rangeUcl := rangeUclJs c sgs
          rangeLcl := rangeLclJs c sgs
          rangeMean := rangeMeanJs sgs }
      match rows with
      | [] => none
      | r :: _ =>
          let dist := calculateDistributionData specs
          some
            { xBarData := xBarData
              rangeData := rangeData
              limits := limits
              usl := r.toSpec
              lsl := r.fromSpec
              distData := dist.1
              bins := dist.2 }

/-- The initial sample size of the analysis screen,
`useState(1)` (`index.tsx` line 51). -/
def defaultSampleSize : ℕ := 1

/-- Models `stdDev = rangeMean / (sampleSize === 1 ? 1.128 : Math.sqrt(sampleSize))`
(`index.tsx` line 228), over the ideal reals. -/
noncomputable def stdDevR (rangeMean : ℝ) (size : ℕ) : ℝ :=
  rangeMean / (if size = 1 then 1.128 else Real.sqrt size)

/-- Models `cp = (usl - lsl) / (6 * stdDev)` (`index.tsx` line 229). -/
noncomputable def cpR (usl lsl sd : ℝ) : ℝ := (usl - lsl) / (6 * sd)

/-- Models `cpu = (usl - mean) / (3 * stdDev)` (`index.tsx` line 230). -/
noncomputable def cpuR (usl mean sd : ℝ) : ℝ := (usl - mean) / (3 * sd)

/-- Models `cpl = (mean - lsl) / (3 * stdDev)` (`index.tsx` line 231). -/
noncomputable def cplR (mean lsl sd : ℝ) : ℝ := (mean - lsl) / (3 * sd)

/-- Models `cpk = Math.min(cpu, cpl)` (`index.tsx` line 232). -/
noncomputable def cpkR (cpu cpl : ℝ) : ℝ := min cpu cpl

/-- Models `Number(x.toFixed(4))`: rounding to four decimal places as applied to
every metric field (`index.tsx` lines 237-250).  The exact tie-breaking of
`toFixed` is immaterial to the theorems below, which only compare fields that
receive the identical rounding of the identical value. -/
noncomputable def round4 (x : ℝ) : ℝ := (⌊x * 10000 + 1 / 2⌋ : ℤ) / 10000

/-- The `metrics` record of the analysis bundle (`index.tsx` lines 236-251):
every field is the four-decimal rounding of the corresponding raw value, and
the performance indices `pp`/`ppu`/`ppl`/`ppk` are built from the very same
expressions as `cp`/`cpu`/`cpl`/`cpk`. -/
structure MetricsR where
  xBar : ℝ
  stdDevOverall : ℝ
  stdDevWithin : ℝ
  movingRange : ℝ
  cp : ℝ
  cpkUpper : ℝ
  cpkLower : ℝ
  cpk : ℝ
  pp : ℝ
  ppu : ℝ
  ppl : ℝ
  ppk : ℝ
  lsl : ℝ
  usl : ℝ

/-- The construction of the `metrics` record from the raw statistics
(`index.tsx` lines 228-232 and 236-251). -/
noncomputable def metricsR (rangeMean mean usl lsl : ℝ) (size : ℕ) : MetricsR :=
  let sd := stdDevR rangeMean size
  let cp := cpR usl lsl sd
  let cpu := cpuR usl mean sd
  let cpl := cplR mean lsl sd
  let cpk := cpkR cpu cpl
  { xBar := round4 mean
    stdDevOverall := round4 sd
    stdDevWithin := round4 sd
    movingRange := round4 rangeMean
    cp := round4 cp
    cpkUpper := round4 cpu
    cpkLower := round4 cpl
    cpk := round4 cpk
    pp := round4 cp
    ppu := round4 cpu
    ppl := round4 cpl
    ppk := round4 cpk
    lsl := round4 lsl
    usl := round4 usl }

/-- The `sampleSize === 1` branch of `stdDev` (`index.tsx` line 228) on
`JsNum` operands: `rangeMean / 1.128`. -/
def stdDevJsSize1 (rangeMean : JsNum) : JsNum :=
  jsDiv rangeMean (JsNum.num 1.128)

/-- Models `cp = (usl - lsl) / (6 * stdDev)` (`index.tsx` line 229) on `JsNum`
operands. -/
def cpJs (usl lsl : ℚ) (sd : JsNum) : JsNum :=
  jsDiv (JsNum.num (usl - lsl)) (jsMul (JsNum.num 6) sd)

/-- Models `cpu = (usl - mean) / (3 * stdDev)` (`index.tsx` line 230) on `JsNum`
operands. -/
def cpuJs (usl : ℚ) (mean sd : JsNum) : JsNum :=
  jsDiv (jsSub (JsNum.num usl) mean) (jsMul (JsNum.num 3) sd)

/-- Models `cpl = (mean - lsl) / (3 * stdDev)` (`index.tsx` line 231) on `JsNum`
operands. -/
def cplJs (lsl : ℚ) (mean sd : JsNum) : JsNum :=
  jsDiv (jsSub mean (JsNum.num lsl)) (jsMul (JsNum.num 3) sd)

/-- Models `cpk = Math.min(cpu, cpl)` (`index.tsx` line 232) on `JsNum` operands. -/
def cpkJs (cpu cpl : JsNum) : JsNum := jsMin cpu cpl

theorem calculateSubgroupsAux_nil (fuel size : ℕ) :
    calculateSubgroupsAux fuel [] size = [] := by
  cases fuel <;> rfl

/-- The loop of `calculateSubgroups` produces exactly the statistics of the
complete windows `data.slice(k*size, (k+1)*size)` for `k < ⌊data.length /
size⌋`, in order. -/
theorem calculateSubgroupsAux_eq (size : ℕ) (hsize : 1 ≤ size) :
    ∀ (fuel : ℕ) (data : List ℚ), data.length ≤ fuel →
      calculateSubgroupsAux fuel data size =
        (List.range (data.length / size)).map (fun k =>
          { mean := (window data size k).sum / (size : ℚ)
            range := listMax (window data size k) - listMin (window data size k) }) := by
  intro fuel
  induction fuel with
  | zero =>
      intro data hlen
      have hdata : data = [] := List.eq_nil_of_length_eq_zero (Nat.le_zero.mp hlen)
      subst hdata
      simp [calculateSubgroupsAux]
  | succ fuel ih =>
      intro data hlen
      cases data with
      | nil => simp [calculateSubgroupsAux]
      | cons d ds =>
          by_cases hle : size ≤ (d :: ds).length
          · have htake : ((d :: ds).take size).length = size := by
              rw [List.length_take]; omega
            have hdroplen : ((d :: ds).drop size).length ≤ fuel := by
              rw [List.length_drop]
              have : (d :: ds).length ≤ fuel + 1 := hlen
              omega
            have hdiv : (d :: ds).length / size =
                ((d :: ds).drop size).length / size + 1 := by
              rw [List.length_drop]
              rw [Nat.div_eq_sub_div (by omega) hle]
            simp only [calculateSubgroupsAux]
            rw [if_pos htake, ih _ hdroplen, hdiv, List.range_succ_eq_map,
              List.map_cons, List.map_map]
            congr 1
            · simp [window, List.drop_zero]
            · apply List.map_congr_left
              intro k _
              have hw : window (d :: ds) size (k + 1) =
                  window ((d :: ds).drop size) size k := by
                simp only [window, List.drop_drop]
                have hms : (k + 1) * size = size + k * size := by ring
                rw [hms]
              simp [Function.comp, hw]
          · have htake : ¬ ((d :: ds).take size).length = size := by
              rw [List.length_take]; omega
            have hdrop : (d :: ds).drop size = [] :=
              List.drop_eq_nil_of_le (by omega)
            have hdiv : (d :: ds).length / size = 0 :=
              Nat.div_eq_of_lt (by omega)
            simp only [calculateSubgroupsAux]
            rw [if_neg htake, hdrop, calculateSubgroupsAux_nil, hdiv]
            simp

/-- Models `calculateSubgroups data size` for `size ≥ 1` is the list of window
statistics of the complete windows, in input order. -/
theorem calculateSubgroups_eq_map (data : List ℚ) (size : ℕ) (hsize : 1 ≤ size) :
    calculateSubgroups data size =
      (List.range (data.length / size)).map (fun k =>
        { mean := (window data size k).sum / (size : ℚ)
          range := listMax (window data size k) - listMin (window data size k) }) := by
  rw [calculateSubgroups, if_neg (by omega)]
  exact calculateSubgroupsAux_eq size hsize data.length data le_rfl

/-- Every window indexed below `⌊data.length / size⌋` is complete: it has
exactly `size` elements. -/
theorem window_length (data : List ℚ) (size k : ℕ)
    (hk : k < data.length / size) : (window data size k).length = size := by
  have h1 : k + 1 ≤ data.length / size := hk
  have h2 : (k + 1) * size ≤ (data.length / size) * size :=
    Nat.mul_le_mul_right size h1
  have h3 : (data.length / size) * size ≤ data.length :=
    Nat.div_mul_le_self data.length size
  have h4 : k * size + size ≤ data.length := by
    have : (k + 1) * size = k * size + size := by ring
    omega
  rw [window, List.length_take, List.length_drop]
  omega

theorem listMax_singleton (a : ℚ) : listMax [a] = a := rfl

theorem listMin_singleton (a : ℚ) : listMin [a] = a := rfl

/-- With sample size 1 there is one subgroup per measurement. -/
theorem calculateSubgroups_one_length (data : List ℚ) :
    (calculateSubgroups data 1).length = data.length := by
  rw [calculateSubgroups_eq_map data 1 le_rfl]
  simp

/-- With sample size 1 every window is a singleton, so every subgroup range
is `max - min = 0`. -/
theorem calculateSubgroups_one_range (data : List ℚ) :
    ∀ sg ∈ calculateSubgroups data 1, sg.range = 0 := by
  intro sg hsg
  rw [calculateSubgroups_eq_map data 1 le_rfl] at hsg
  rcases List.mem_map.mp hsg with ⟨k, hk, hfk⟩
  have hk1 : k < data.length / 1 := List.mem_range.mp hk
  have hwl : (window data 1 k).length = 1 := window_length data 1 k hk1
  rcases List.length_eq_one.mp hwl with ⟨a, ha⟩
  rw [← hfk]
  simp [ha, listMax_singleton, listMin_singleton]

/-- On a nonempty subgroup list the grand mean is the finite rational
`Σ means / count`. -/
theorem xBarMeanJs_num (sgs : List Subgroup) (h : sgs ≠ []) :
    xBarMeanJs sgs =
      JsNum.num ((sgs.map Subgroup.mean).sum / (sgs.length : ℚ)) := by
  have hlen : (sgs.length : ℚ) ≠ 0 := by
    exact_mod_cast Nat.cast_ne_zero.mpr (List.length_pos.mpr h).ne'
  simp [xBarMeanJs, jsDiv, hlen]

/-- On a nonempty subgroup list the range mean is the finite rational
`Σ ranges / count`. -/
theorem rangeMeanJs_num (sgs : List Subgroup) (h : sgs ≠ []) :
    rangeMeanJs sgs =
      JsNum.num ((sgs.map Subgroup.range).sum / (sgs.length : ℚ)) := by
  have hlen : (sgs.length : ℚ) ≠ 0 := by
    exact_mod_cast Nat.cast_ne_zero.mpr (List.length_pos.mpr h).ne'
  simp [rangeMeanJs, jsDiv, hlen]

/-- Dividing a finite number by finite zero never produces a finite result
(`+Infinity`, `-Infinity` or `NaN` depending on the numerator sign). -/
theorem jsDiv_num_zero_not_finite (a : ℚ) :
    (jsDiv (JsNum.num a) (JsNum.num 0)).isFinite = false := by
  simp only [jsDiv, if_pos rfl]
  split_ifs <;> rfl

/-- Models `Math.min` of two non-finite values is non-finite. -/
theorem jsMin_not_finite (x y : JsNum) (hx : x.isFinite = false)
    (hy : y.isFinite = false) : (jsMin x y).isFinite = false := by
  cases x <;> cases y <;> simp_all [jsMin, JsNum.isFinite]

/-- The grand mean only depends on the multiset of subgroups. -/
theorem xBarMeanJs_perm (sgs sgs' : List Subgroup) (hp : sgs.Perm sgs') :
    xBarMeanJs sgs = xBarMeanJs sgs' := by
  rw [xBarMeanJs, xBarMeanJs, (hp.map Subgroup.mean).sum_eq, hp.length_eq]

/-- The range mean only depends on the multiset of subgroups. -/
theorem rangeMeanJs_perm (sgs sgs' : List Subgroup) (hp : sgs.Perm sgs') :
    rangeMeanJs sgs = rangeMeanJs sgs' := by
  rw [rangeMeanJs, rangeMeanJs, (hp.map Subgroup.range).sum_eq, hp.length_eq]

/-- Sizes outside the table have no `constants` entry in `handleAnalyze`. -/
theorem constantsIndex_eq_none (size : ℕ)
    (h : ¬ size ∈ ([1, 2, 3, 4, 5] : List ℕ)) : constantsIndex size = none := by
  rcases size with _ | _ | _ | _ | _ | _ | n
  · rfl
  · exact absurd (by decide) h
  · exact absurd (by decide) h
  · exact absurd (by decide) h
  · exact absurd (by decide) h
  · exact absurd (by decide) h
  · rfl

/-- Sizes outside the table have no `constants` entry in `ControlCharts`. -/
theorem ccConstantsIndex_eq_none (size : ℕ)
    (h : ¬ size ∈ ([1, 2, 3, 4, 5] : List ℕ)) : ccConstantsIndex size = none := by
  rcases size with _ | _ | _ | _ | _ | _ | n
  · rfl
  · exact absurd (by decide) h
  · exact absurd (by decide) h
  · exact absurd (by decide) h
  · exact absurd (by decide) h
  · exact absurd (by decide) h
  · rfl

/-- An out-of-table size makes the `handleAnalyze` pipeline abort (the
destructuring of the `undefined` lookup throws). -/
theorem handleAnalyzeCore_eq_none_of_bad_size (rows : List InspectionRow)
    (size : ℕ) (h : ¬ size ∈ ([1, 2, 3, 4, 5] : List ℕ)) :
    handleAnalyzeCore rows size = none := by
  simp [handleAnalyzeCore, constantsIndex_eq_none size h]

/-- With empty rows the pipeline aborts for every size (either at the
constants destructuring or at the `filteredData[0]` access). -/
theorem handleAnalyzeCore_nil (size : ℕ) :
    handleAnalyzeCore [] size = none := by
  cases hc : constantsIndex size <;> simp [handleAnalyzeCore, hc]

/-- With nonempty rows and a tabulated size the pipeline always returns a
full bundle: nothing between the two throw sites validates anything. -/
theorem handleAnalyzeCore_isSome (rows : List InspectionRow) (size : ℕ)
    (hrows : rows ≠ []) (hsize : size ∈ ([1, 2, 3, 4, 5] : List ℕ)) :
    (handleAnalyzeCore rows size).isSome = true := by
  rcases rows with _ | ⟨r, rs⟩
  · exact absurd rfl hrows
  · fin_cases hsize <;> simp [handleAnalyzeCore, constantsIndex]

/-- Claim C1: for every measurement sequence and every size ≥ 1,
`calculateSubgroups` returns exactly `⌊count/size⌋` subgroups — the
statistics of the consecutive non-overlapping windows of exactly `size`
elements taken in input order starting at index 0, any final partial window
silently dropped — and each subgroup's mean equals the window's sum divided
by `size` while its range equals the window's max minus its min. -/
theorem subgrouper_windows_spec (data : List ℚ) (size : ℕ) (hsize : 1 ≤ size) :
    (calculateSubgroups data size).length = data.length / size ∧
    calculateSubgroups data size =
      (List.range (data.length / size)).map (fun k =>
        { mean := (window data size k).sum / (size : ℚ)
          range := listMax (window data size k) - listMin (window data size k) }) ∧
    ∀ k < data.length / size, (window data size k).length = size := by
  refine ⟨?_, calculateSubgroups_eq_map data size hsize,
    fun k hk => window_length data size k hk⟩
  rw [calculateSubgroups_eq_map data size hsize]
  simp

/-- Witness for C1 at measurements `[10, 12, 11]` and size 2: one complete
window, the trailing `11` dropped. -/
theorem subgrouper_windows_spec_witness :
    (calculateSubgroups [10, 12, 11] 2).length = [10, 12, 11].length / 2 ∧
    calculateSubgroups [10, 12, 11] 2 =
      (List.range ([10, 12, 11].length / 2)).map (fun k =>
        { mean := (window [10, 12, 11] 2 k).sum / ((2 : ℕ) : ℚ)
          range := listMax (window [10, 12, 11] 2 k) - listMin (window [10, 12, 11] 2 k) }) ∧
    ∀ k < [10, 12, 11].length / 2, (window [10, 12, 11] 2 k).length = 2 :=
  subgrouper_windows_spec [10, 12, 11] 2 (by decide)

/-- Claim C2: for every valid input (tabulated size, `usl > lsl`), the
capability calculation takes `stdDev = rangeMean / d2(size)` with
`d2(1) = 1.128` and `d2(size) = sqrt(size)` for `size ≠ 1`, then
`cp = (usl-lsl)/(6·stdDev)`, `cpu = (usl-mean)/(3·stdDev)`,
`cpl = (mean-lsl)/(3·stdDev)` and `cpk = min(cpu, cpl)`. -/
theorem capability_formulas (rangeMean mean usl lsl : ℝ) (size : ℕ)
    (hsize : size ∈ ([1, 2, 3, 4, 5] : List ℕ)) (hspec : lsl < usl) :
    (size = 1 → stdDevR rangeMean size = rangeMean / 1.128) ∧
    (size ≠ 1 → stdDevR rangeMean size = rangeMean / Real.sqrt (size : ℝ)) ∧
    cpR usl lsl (stdDevR rangeMean size) =
      (usl - lsl) / (6 * stdDevR rangeMean size) ∧
    cpuR usl mean (stdDevR rangeMean size) =
      (usl - mean) / (3 * stdDevR rangeMean size) ∧
    cplR mean lsl (stdDevR rangeMean size) =
      (mean - lsl) / (3 * stdDevR rangeMean size) ∧
    cpkR (cpuR usl mean (stdDevR rangeMean size))
        (cplR mean lsl (stdDevR rangeMean size)) =
      min (cpuR usl mean (stdDevR rangeMean size))
        (cplR mean lsl (stdDevR rangeMean size)) := by
  refine ⟨fun h1 => ?_, fun h1 => ?_, rfl, rfl, rfl, rfl⟩
  · rw [stdDevR, if_pos h1]
  · rw [stdDevR, if_neg h1]

/-- Witness for C2 at `rangeMean = 2`, `mean = 11`, `usl = 15`, `lsl = 5`,
size 2. -/
theorem capability_formulas_witness :
    ((2 : ℕ) = 1 → stdDevR 2 2 = 2 / 1.128) ∧
    ((2 : ℕ) ≠ 1 → stdDevR 2 2 = 2 / Real.sqrt ((2 : ℕ) : ℝ)) ∧
    cpR 15 5 (stdDevR 2 2) = (15 - 5) / (6 * stdDevR 2 2) ∧
    cpuR 15 11 (stdDevR 2 2) = (15 - 11) / (3 * stdDevR 2 2) ∧
    cplR 11 5 (stdDevR 2 2) = (11 - 5) / (3 * stdDevR 2 2) ∧
    cpkR (cpuR 15 11 (stdDevR 2 2)) (cplR 11 5 (stdDevR 2 2)) =
      min (cpuR 15 11 (stdDevR 2 2)) (cplR 11 5 (stdDevR 2 2)) :=
  capability_formulas 2 11 15 5 2 (by decide) (by norm_num)

/-- Claim C3 (Scenario A): measurements `[10,12,11,13,9,11,10,12]` with size
2 give subgroups `(11,2), (12,2), (10,2), (11,2)`, grand mean 11, range mean
2, and with `A2(2) = 1.023` the limits `xBarUcl = 13.046` and
`xBarLcl = 8.954`. -/
theorem scenario_a_control_limits :
    calculateSubgroups [10, 12, 11, 13, 9, 11, 10, 12] 2 =
      [⟨11, 2⟩, ⟨12, 2⟩, ⟨10, 2⟩, ⟨11, 2⟩] ∧
    xBarMeanJs (calculateSubgroups [10, 12, 11, 13, 9, 11, 10, 12] 2) =
      JsNum.num 11 ∧
    rangeMeanJs (calculateSubgroups [10, 12, 11, 13, 9, 11, 10, 12] 2) =
      JsNum.num 2 ∧
    constantsIndex 2 = some ⟨1.023, 0, 3.267⟩ ∧
    xBarUclJs ⟨1.023, 0, 3.267⟩ (calculateSubgroups [10, 12, 11, 13, 9, 11, 10, 12] 2) =
      JsNum.num 13.046 ∧
    xBarLclJs ⟨1.023, 0, 3.267⟩ (calculateSubgroups [10, 12, 11, 13, 9, 11, 10, 12] 2) =
      JsNum.num 8.954 := by
  have hsub : calculateSubgroups [10, 12, 11, 13, 9, 11, 10, 12] 2 =
      [⟨11, 2⟩, ⟨12, 2⟩, ⟨10, 2⟩, ⟨11, 2⟩] := by
    norm_num [calculateSubgroups, calculateSubgroupsAux, listMax, listMin]
  refine ⟨hsub, ?_, ?_, ?_, ?_, ?_⟩
  · rw [hsub]; norm_num [xBarMeanJs, jsDiv]
  · rw [hsub]; norm_num [rangeMeanJs, jsDiv]
  · norm_num [constantsIndex, ConstantsRec.mk.injEq]
  · rw [hsub]; norm_num [xBarUclJs, xBarMeanJs, rangeMeanJs, jsAdd, jsMul, jsDiv]
  · rw [hsub]; norm_num [xBarLclJs, xBarMeanJs, rangeMeanJs, jsSub, jsMul, jsDiv]

/-- Claim C4, evaluated at the failing input (Scenario D, eight copies of
10): the zero-variance branch is absent from the code, `binWidth = 0` makes
every bin index `NaN` (`0/0`), no array slot is incremented, and the bin
counts sum to 0 instead of 8. -/
theorem histogram_zero_variance_drops_all :
    calculateDistributionData (List.replicate 8 (10 : ℚ)) =
      ([(10, 0), (10, 0), (10, 0)], 3) ∧
    ((calculateDistributionData (List.replicate 8 (10 : ℚ))).1.map Prod.snd).sum = 0 ∧
    (List.replicate 8 (10 : ℚ)).length = 8 := by
  have hs : (2 : ℕ) = Nat.sqrt 8 := Nat.eq_sqrt.mpr (by decide)
  have hn : numberOfBins 8 = 3 := by rw [numberOfBins, ← hs]; decide
  have hmn : listMin (List.replicate 8 (10 : ℚ)) = 10 := by
    norm_num [listMin, List.replicate]
  have hmx : listMax (List.replicate 8 (10 : ℚ)) = 10 := by
    norm_num [listMax, List.replicate]
  have hpt : ∀ k : ℕ, ¬ jsArrayIndex (binIndexJs 10 10 0 3) = some k := by
    intro k
    norm_num [binIndexJs, jsArrayIndex, jsMin, jsFloor, jsDiv]
    exact fun hc => Option.noConfusion hc
  have h8 : List.replicate 8 (10 : ℚ) = 10 :: List.replicate 7 (10 : ℚ) := rfl
  have hmain : calculateDistributionData (List.replicate 8 (10 : ℚ)) =
      ([(10, 0), (10, 0), (10, 0)], 3) := by
    rw [h8, calculateDistributionData]
    · simp only [← h8, hmn, hmx, List.length_replicate, hn]
      norm_num [List.range_succ]
      exact ⟨hpt 0, hpt 1, hpt 2⟩
    · exact fun hc => List.noConfusion hc
  exact ⟨hmain, by rw [hmain]; rfl, rfl⟩

/-- Counterexample to claim C5: with `usl = lsl = 20` (so `usl ≤ lsl`) the
pipeline does not refuse — it returns a full bundle — and for the
out-of-table size 7 the `ControlCharts` component silently substitutes the
size-1 constants instead of failing. -/
theorem invalid_config_not_refused_cex :
    (handleAnalyzeCore [⟨10, 20, 20⟩] 1).isSome = true ∧
    (handleAnalyzeCore [⟨10, 20, 20⟩] 1).map AnalysisQ.usl = some 20 ∧
    (handleAnalyzeCore [⟨10, 20, 20⟩] 1).map AnalysisQ.lsl = some 20 ∧
    controlChartsConstants 7 = ⟨1.880, 0, 3.267, 1.128⟩ := by
  refine ⟨?_, ?_, ?_, ?_⟩ <;>
    norm_num [handleAnalyzeCore, constantsIndex, controlChartsConstants,
      ccConstantsIndex, CCConstantsRec.mk.injEq]

/-- Claim C5 as amended: an out-of-table size aborts `handleAnalyze` with no
partial result (a thrown destructuring error, not a typed
`InvalidConfiguration`), while `ControlCharts` silently substitutes the
size-1 constants for it, and `usl ≤ lsl` is never validated — with nonempty
rows and a tabulated size the pipeline always returns a full bundle. -/
theorem invalid_config_actual_behavior (rows : List InspectionRow)
    (size bad : ℕ) (hrows : rows ≠ [])
    (hsize : size ∈ ([1, 2, 3, 4, 5] : List ℕ))
    (hbad : ¬ bad ∈ ([1, 2, 3, 4, 5] : List ℕ)) :
    handleAnalyzeCore rows bad = none ∧
    controlChartsConstants bad = controlChartsConstants 1 ∧
    (handleAnalyzeCore rows size).isSome = true :=
  ⟨handleAnalyzeCore_eq_none_of_bad_size rows bad hbad,
   by rw [controlChartsConstants, controlChartsConstants,
        ccConstantsIndex_eq_none bad hbad]; rfl,
   handleAnalyzeCore_isSome rows size hrows hsize⟩

/-- Witness for the amended C5 at one row, good size 1, bad size 7. -/
theorem invalid_config_actual_behavior_witness :
    handleAnalyzeCore [⟨10, 20, 20⟩] 7 = none ∧
    controlChartsConstants 7 = controlChartsConstants 1 ∧
    (handleAnalyzeCore [⟨10, 20, 20⟩] 1).isSome = true :=
  invalid_config_actual_behavior [⟨10, 20, 20⟩] 1 7
    (List.cons_ne_nil _ _) (by decide) (by decide)

/-- Counterexample to claim C6: the histogram binner returns normally (zero
bins, no error) on an empty measurement sequence, and an input whose
partitioning yields zero complete subgroups (one measurement, size 2)
produces a full bundle whose control-limit center lines are `NaN` — no
`InsufficientData` failure exists on either path. -/
theorem insufficient_data_not_raised_cex :
    calculateDistributionData ([] : List ℚ) = ([], 0) ∧
    (handleAnalyzeCore [⟨10, 5, 15⟩] 2).isSome = true ∧
    ((handleAnalyzeCore [⟨10, 5, 15⟩] 2).map AnalysisQ.limits).map LimitsQ.xBarMean =
      some JsNum.nan ∧
    ((handleAnalyzeCore [⟨10, 5, 15⟩] 2).map AnalysisQ.limits).map LimitsQ.rangeMean =
      some JsNum.nan := by
  refine ⟨rfl, ?_, ?_, ?_⟩ <;>
    norm_num [handleAnalyzeCore, constantsIndex, calculateSubgroups,
      calculateSubgroupsAux, xBarMeanJs, rangeMeanJs, jsDiv]

/-- Claim C6 as amended: for empty measurements the pipeline aborts (reading
element 0 of the empty row list throws) with no typed `InsufficientData`;
the histogram binner on empty input returns zero bins with no error; and
when partitioning yields zero complete subgroups from nonempty rows the
pipeline returns a full bundle whose center lines are `NaN` (`0/0`). -/
theorem empty_and_zero_subgroup_actual_behavior (rows : List InspectionRow)
    (size : ℕ) (c : ConstantsRec) (hrows : rows ≠ [])
    (hc : constantsIndex size = some c)
    (hz : calculateSubgroups (rows.map InspectionRow.actual) size = []) :
    handleAnalyzeCore [] size = none ∧
    calculateDistributionData ([] : List ℚ) = ([], 0) ∧
    (handleAnalyzeCore rows size).isSome = true ∧
    ((handleAnalyzeCore rows size).map AnalysisQ.limits).map LimitsQ.xBarMean =
      some JsNum.nan ∧
    ((handleAnalyzeCore rows size).map AnalysisQ.limits).map LimitsQ.rangeMean =
      some JsNum.nan := by
  rcases rows with _ | ⟨r, rs⟩
  · exact absurd rfl hrows
  · have hz' : calculateSubgroups (r.actual :: rs.map InspectionRow.actual) size
        = [] := by simpa using hz
    refine ⟨handleAnalyzeCore_nil size, rfl, ?_, ?_, ?_⟩ <;>
      norm_num [handleAnalyzeCore, hc, xBarMeanJs, rangeMeanJs, hz', jsDiv]

/-- Witness for the amended C6 at one row `(10, 5, 15)` and size 2. -/
theorem empty_and_zero_subgroup_actual_behavior_witness :
    handleAnalyzeCore [] 2 = none ∧
    calculateDistributionData ([] : List ℚ) = ([], 0) ∧
    (handleAnalyzeCore [⟨10, 5, 15⟩] 2).isSome = true ∧
    ((handleAnalyzeCore [⟨10, 5, 15⟩] 2).map AnalysisQ.limits).map LimitsQ.xBarMean =
      some JsNum.nan ∧
    ((handleAnalyzeCore [⟨10, 5, 15⟩] 2).map AnalysisQ.limits).map LimitsQ.rangeMean =
      some JsNum.nan :=
  empty_and_zero_subgroup_actual_behavior [⟨10, 5, 15⟩] 2 ⟨1.023, 0, 3.267⟩
    (List.cons_ne_nil _ _)
    (by norm_num [constantsIndex, ConstantsRec.mk.injEq]) rfl

/-- Claim C7: every performance index in the returned metrics equals its
capability counterpart (`pp = cp`, `ppu = cpu`, `ppl = cpl`, `ppk = cpk`),
and no distinct long-term sigma is computed
(`stdDevOverall = stdDevWithin`). -/
theorem pp_family_aliases_cp_family (rangeMean mean usl lsl : ℝ) (size : ℕ) :
    (metricsR rangeMean mean usl lsl size).pp =
      (metricsR rangeMean mean usl lsl size).cp ∧
    (metricsR rangeMean mean usl lsl size).ppu =
      (metricsR rangeMean mean usl lsl size).cpkUpper ∧
    (metricsR rangeMean mean usl lsl size).ppl =
      (metricsR rangeMean mean usl lsl size).cpkLower ∧
    (metricsR rangeMean mean usl lsl size).ppk =
      (metricsR rangeMean mean usl lsl size).cpk ∧
    (metricsR rangeMean mean usl lsl size).stdDevOverall =
      (metricsR rangeMean mean usl lsl size).stdDevWithin :=
  ⟨rfl, rfl, rfl, rfl, rfl⟩

/-- Claim C8: for every nonempty subgroup list and every tabulated size,
`rangeLcl` is computed as `D3 * rangeMean`, the tabulated `D3` is 0, and so
`rangeLcl = 0`. -/
theorem rangeLcl_zero (sgs : List Subgroup) (size : ℕ) (c : ConstantsRec)
    (hne : sgs ≠ []) (hc : constantsIndex size = some c) :
    rangeLclJs c sgs = jsMul (JsNum.num c.D3) (rangeMeanJs sgs) ∧
    c.D3 = 0 ∧
    rangeLclJs c sgs = JsNum.num 0 := by
  have hD3 : c.D3 = 0 := by
    rcases size with _ | _ | _ | _ | _ | _ | n
    · exact absurd hc (by simp [constantsIndex])
    all_goals
      first
        | (simp only [constantsIndex, Option.some.injEq] at hc
           rw [← hc])
        | exact absurd hc (by simp [constantsIndex])
  refine ⟨rfl, hD3, ?_⟩
  rw [rangeLclJs, hD3, rangeMeanJs_num sgs hne]
  norm_num [jsMul]

/-- Witness for C8 at one subgroup `(11, 2)` and size 2. -/
theorem rangeLcl_zero_witness :
    rangeLclJs ⟨1.023, 0, 3.267⟩ [⟨11, 2⟩] =
      jsMul (JsNum.num (⟨1.023, 0, 3.267⟩ : ConstantsRec).D3) (rangeMeanJs [⟨11, 2⟩]) ∧
    (⟨1.023, 0, 3.267⟩ : ConstantsRec).D3 = 0 ∧
    rangeLclJs ⟨1.023, 0, 3.267⟩ [⟨11, 2⟩] = JsNum.num 0 :=
  rangeLcl_zero [⟨11, 2⟩] 2 ⟨1.023, 0, 3.267⟩ (List.cons_ne_nil _ _)
    (by norm_num [constantsIndex, ConstantsRec.mk.injEq])

/-- Claim C9: the control-limit calculation is invariant under every
permutation of a nonempty subgroup list — all six output fields coincide,
because only the means of the subgroup statistics enter them. -/
theorem control_limits_permutation_invariant (c : ConstantsRec)
    (sgs sgs' : List Subgroup) (hne : sgs ≠ []) (hp : sgs.Perm sgs') :
    xBarUclJs c sgs = xBarUclJs c sgs' ∧
    xBarLclJs c sgs = xBarLclJs c sgs' ∧
    xBarMeanJs sgs = xBarMeanJs sgs' ∧
    rangeUclJs c sgs = rangeUclJs c sgs' ∧
    rangeLclJs c sgs = rangeLclJs c sgs' ∧
    rangeMeanJs sgs = rangeMeanJs sgs' := by
  have hx := xBarMeanJs_perm sgs sgs' hp
  have hr := rangeMeanJs_perm sgs sgs' hp
  exact ⟨by rw [xBarUclJs, xBarUclJs, hx, hr],
    by rw [xBarLclJs, xBarLclJs, hx, hr], hx,
    by rw [rangeUclJs, rangeUclJs, hr],
    by rw [rangeLclJs, rangeLclJs, hr], hr⟩

/-- Witness for C9 at the two-element subgroup list swapped. -/
theorem control_limits_permutation_invariant_witness :
    xBarUclJs ⟨1.023, 0, 3.267⟩ [⟨1, 0⟩, ⟨2, 1⟩] =
      xBarUclJs ⟨1.023, 0, 3.267⟩ [⟨2, 1⟩, ⟨1, 0⟩] ∧
    xBarLclJs ⟨1.023, 0, 3.267⟩ [⟨1, 0⟩, ⟨2, 1⟩] =
      xBarLclJs ⟨1.023, 0, 3.267⟩ [⟨2, 1⟩, ⟨1, 0⟩] ∧
    xBarMeanJs [⟨1, 0⟩, ⟨2, 1⟩] = xBarMeanJs [⟨2, 1⟩, ⟨1, 0⟩] ∧
    rangeUclJs ⟨1.023, 0, 3.267⟩ [⟨1, 0⟩, ⟨2, 1⟩] =
      rangeUclJs ⟨1.023, 0, 3.267⟩ [⟨2, 1⟩, ⟨1, 0⟩] ∧
    rangeLclJs ⟨1.023, 0, 3.267⟩ [⟨1, 0⟩, ⟨2, 1⟩] =
      rangeLclJs ⟨1.023, 0, 3.267⟩ [⟨2, 1⟩, ⟨1, 0⟩] ∧
    rangeMeanJs [⟨1, 0⟩, ⟨2, 1⟩] = rangeMeanJs [⟨2, 1⟩, ⟨1, 0⟩] :=
  control_limits_permutation_invariant ⟨1.023, 0, 3.267⟩
    [⟨1, 0⟩, ⟨2, 1⟩] [⟨2, 1⟩, ⟨1, 0⟩]
    (List.cons_ne_nil _ _)
    (List.Perm.swap (⟨2, 1⟩ : Subgroup) (⟨1, 0⟩ : Subgroup) [])

/-- Claim C10: with the UI default sample size 1 every subgroup has range 0,
so the estimated standard deviation is `0 / 1.128 = 0` and the capability
divisions divide by zero, yielding `Infinity` or `NaN` (never a finite
number, and never an error) for `cp`, `cpu`, `cpl` and `cpk`. -/
theorem size_one_capability_degenerate (data : List ℚ) (usl lsl : ℚ)
    (h : data ≠ []) :
    defaultSampleSize = 1 ∧
    (∀ sg ∈ calculateSubgroups data 1, sg.range = 0) ∧
    rangeMeanJs (calculateSubgroups data 1) = JsNum.num 0 ∧
    stdDevJsSize1 (rangeMeanJs (calculateSubgroups data 1)) = JsNum.num 0 ∧
    (cpJs usl lsl (stdDevJsSize1 (rangeMeanJs (calculateSubgroups data 1)))).isFinite
      = false ∧
    (cpuJs usl (xBarMeanJs (calculateSubgroups data 1))
      (stdDevJsSize1 (rangeMeanJs (calculateSubgroups data 1)))).isFinite = false ∧
    (cplJs lsl (xBarMeanJs (calculateSubgroups data 1))
      (stdDevJsSize1 (rangeMeanJs (calculateSubgroups data 1)))).isFinite = false ∧
    (cpkJs
      (cpuJs usl (xBarMeanJs (calculateSubgroups data 1))
        (stdDevJsSize1 (rangeMeanJs (calculateSubgroups data 1))))
      (cplJs lsl (xBarMeanJs (calculateSubgroups data 1))
        (stdDevJsSize1 (rangeMeanJs (calculateSubgroups data 1))))).isFinite = false := by
  have hne : calculateSubgroups data 1 ≠ [] := by
    have hlen := calculateSubgroups_one_length data
    intro hcon
    rw [hcon] at hlen
    exact h (List.eq_nil_of_length_eq_zero hlen.symm)
  have hrange := calculateSubgroups_one_range data
  have hsum : ((calculateSubgroups data 1).map Subgroup.range).sum = 0 := by
    apply List.sum_eq_zero
    intro x hx
    rcases List.mem_map.mp hx with ⟨sg, hsg, hxeq⟩
    rw [← hxeq]
    exact hrange sg hsg
  have hrm : rangeMeanJs (calculateSubgroups data 1) = JsNum.num 0 := by
    rw [rangeMeanJs_num _ hne, hsum]
    norm_num
  have hsd : stdDevJsSize1 (rangeMeanJs (calculateSubgroups data 1)) = JsNum.num 0 := by
    rw [hrm]
    norm_num [stdDevJsSize1, jsDiv]
  have hxm := xBarMeanJs_num _ hne
  have hcp : (cpJs usl lsl
      (stdDevJsSize1 (rangeMeanJs (calculateSubgroups data 1)))).isFinite = false := by
    rw [hsd]
    have h60 : jsMul (JsNum.num 6) (JsNum.num 0) = JsNum.num 0 := by
      norm_num [jsMul]
    rw [cpJs, h60]
    exact jsDiv_num_zero_not_finite _
  have hcpu : (cpuJs usl (xBarMeanJs (calculateSubgroups data 1))
      (stdDevJsSize1 (rangeMeanJs (calculateSubgroups data 1)))).isFinite = false := by
    rw [hsd, hxm]
    have h30 : jsMul (JsNum.num 3) (JsNum.num 0) = JsNum.num 0 := by
      norm_num [jsMul]
    rw [cpuJs, h30]
    simp only [jsSub]
    exact jsDiv_num_zero_not_finite _
  have hcpl : (cplJs lsl (xBarMeanJs (calculateSubgroups data 1))
      (stdDevJsSize1 (rangeMeanJs (calculateSubgroups data 1)))).isFinite = false := by
    rw [hsd, hxm]
    have h30 : jsMul (JsNum.num 3) (JsNum.num 0) = JsNum.num 0 := by
      norm_num [jsMul]
    rw [cplJs, h30]
    simp only [jsSub]
    exact jsDiv_num_zero_not_finite _
  exact ⟨rfl, hrange, hrm, hsd, hcp, hcpu, hcpl,
    jsMin_not_finite _ _ hcpu hcpl⟩

/-- Witness for C10 at the single measurement `[5]` with `usl = 3`,
`lsl = 7`. -/
theorem size_one_capability_degenerate_witness :
    defaultSampleSize = 1 ∧
    (∀ sg ∈ calculateSubgroups [5] 1, sg.range = 0) ∧
    rangeMeanJs (calculateSubgroups [5] 1) = JsNum.num 0 ∧
    stdDevJsSize1 (rangeMeanJs (calculateSubgroups [5] 1)) = JsNum.num 0 ∧
    (cpJs 3 7 (stdDevJsSize1 (rangeMeanJs (calculateSubgroups [5] 1)))).isFinite
      = false ∧
    (cpuJs 3 (xBarMeanJs (calculateSubgroups [5] 1))
      (stdDevJsSize1 (rangeMeanJs (calculateSubgroups [5] 1)))).isFinite = false ∧
    (cplJs 7 (xBarMeanJs (calculateSubgroups [5] 1))
      (stdDevJsSize1 (rangeMeanJs (calculateSubgroups [5] 1)))).isFinite = false ∧
    (cpkJs
      (cpuJs 3 (xBarMeanJs (calculateSubgroups [5] 1))
        (stdDevJsSize1 (rangeMeanJs (calculateSubgroups [5] 1))))
      (cplJs 7 (xBarMeanJs (calculateSubgroups [5] 1))
        (stdDevJsSize1 (rangeMeanJs (calculateSubgroups [5] 1))))).isFinite = false :=
  size_one_capability_degenerate [5] 3 7 (List.cons_ne_nil _ _)

end SPC
